import Mathlib

/-!
Verification of the RPLIDAR A1 driver core (src/drivers/rplidar_driver.py):
command framing, response-descriptor parsing, 5-byte measurement-frame
decoding, rotation accumulation (iter_scans), and the connection/scan
state machine.

Bytes are modelled as natural numbers (< 256 where it matters); the
angle/distance floats are modelled as rationals, exact here because the
divisors are powers of two and the numerators are bounded integers.
-/

namespace RPLidar

/-! ## Protocol constants (verbatim from the module). -/

def SYNC_BYTE_1 : Nat := 0xA5
def SYNC_BYTE_2 : Nat := 0x5A

def CMD_STOP : Nat := 0x25
def CMD_SCAN : Nat := 0x20

def DESCRIPTOR_SIZE : Nat := 7
def SCAN_RESPONSE_SIZE : Nat := 5

def RESPONSE_INFO : Nat := 0x04
def RESPONSE_HEALTH : Nat := 0x06
def RESPONSE_SCAN : Nat := 0x81

/-! ## ScanPoint (the MeasurementPoint of the spec). -/

structure ScanPoint where
  angle : ℚ
  distance : ℚ
  quality : Nat
  new_scan : Bool
deriving DecidableEq, Repr

/-! ## Command encoding: the pure content of `_send_command`.

Python builds `cmd_packet = bytes([SYNC_BYTE_1, command])`; if the payload
is non-empty it appends the length byte and the payload, then a checksum
byte that is the XOR of every byte already in the packet. -/

def xorBytes (l : List Nat) : Nat := l.foldl (fun a b => a ^^^ b) 0

def encodeCommand (command : Nat) (payload : List Nat) : List Nat :=
  let cmdPacket := [SYNC_BYTE_1, command]
  if payload.isEmpty then
    cmdPacket
  else
    let withPayload := cmdPacket ++ [payload.length] ++ payload
    withPayload ++ [xorBytes withPayload]

/-! ## Response descriptor: the pure content of `_read_descriptor`.

The input list is what `serial.read(7)` returned (hence at most 7 bytes;
fewer on timeout). -/

inductive DriverError where
  | notConnected
  | writeError
  | incompleteDescriptor
  | badSyncBytes
  | unexpectedResponseType
  | scanInProgress
deriving DecidableEq, Repr

structure Descriptor where
  size : Nat
  send_mode : Nat
  data_type : Nat
deriving DecidableEq, Repr

/-- `struct.unpack("<I", ...)` on four bytes. -/
def leU32 (b0 b1 b2 b3 : Nat) : Nat :=
  b0 + b1 * 256 + b2 * 65536 + b3 * 16777216

def parseDescriptor (descriptor : List Nat) : Except DriverError Descriptor :=
  if descriptor.length ≠ DESCRIPTOR_SIZE then
    .error .incompleteDescriptor
  else if descriptor.getD 0 0 ≠ SYNC_BYTE_1 ∨ descriptor.getD 1 0 ≠ SYNC_BYTE_2 then
    .error .badSyncBytes
  else
    let sizeAndMode :=
      leU32 (descriptor.getD 2 0) (descriptor.getD 3 0)
        (descriptor.getD 4 0) (descriptor.getD 5 0)
    .ok { size := sizeAndMode &&& 0x3FFFFFFF
          send_mode := sizeAndMode >>> 30
          data_type := descriptor.getD 6 0 }

/-! ## Measurement frame decoding: `_parse_scan_response`. -/

def parseScanResponse (data : List Nat) : ScanPoint :=
  let quality := data.getD 0 0 >>> 2
  let new_scan := data.getD 0 0 &&& 0x01 != 0
  let angle_raw := (data.getD 1 0 >>> 1) ||| (data.getD 2 0 <<< 7)
  let angle : ℚ := (angle_raw : ℚ) / 64
  let distance_raw := data.getD 3 0 ||| (data.getD 4 0 <<< 8)
  let distance : ℚ := (distance_raw : ℚ) / 4
  { angle := angle, distance := distance, quality := quality, new_scan := new_scan }

/-! ## Rotation accumulation: `iter_scans`.

The generator keeps a `current_scan` list and a `scan_count`; on a
rotation-start point with a non-empty accumulation it sorts the
accumulation by angle (Python's stable `list.sort`) and yields it,
breaking once `max_scans` (when positive) rotations have been yielded;
independently of that, the incoming point is appended when its distance
is positive. `iterScansAux` is the loop with its mutable state made
explicit; `iterScans` starts it from the empty state as the generator
does. -/

def angleLe (p q : ScanPoint) : Bool := decide (p.angle ≤ q.angle)

def sortByAngle (l : List ScanPoint) : List ScanPoint := l.mergeSort angleLe

def iterScansAux (maxScans : Nat) (current : List ScanPoint) (count : Nat) :
    List ScanPoint → List (List ScanPoint)
  | [] => []
  | p :: rest =>
    if p.new_scan = true ∧ current ≠ [] then
      if maxScans > 0 ∧ count + 1 ≥ maxScans then
        [sortByAngle current]
      else
        sortByAngle current ::
          iterScansAux maxScans (if p.distance > 0 then [p] else []) (count + 1) rest
    else
      iterScansAux maxScans (if p.distance > 0 then current ++ [p] else current) count rest

def iterScans (points : List ScanPoint) (maxScans : Nat) : List (List ScanPoint) :=
  iterScansAux maxScans [] 0 points

/-! ## Connection lifecycle state machine.

A `Driver` carries the driver's own state (`hasSerial` for
`self._serial is not None`, `scanning` for `self._scanning`) together
with the state of the owned transport: the handle's open flag, the DTR
motor-control line (pyserial records the requested DTR value even on a
closed port, so setting it never raises), the pending receive buffer,
and an environment flag `writeFails` saying whether a transport write
raises. Operations return the raised error (`none` when the call
returns normally) paired with the state after the call, since Python
keeps mutations made before an exception propagates. -/

structure Driver where
  hasSerial : Bool
  isOpen : Bool
  dtr : Bool
  writeFails : Bool
  inputBuffer : List Nat
  scanning : Bool
deriving DecidableEq, Repr

inductive ConnState where
  | Disconnected
  | Connected
  | Scanning
deriving DecidableEq, Repr

/-- `is_connected`: the handle exists and is open. -/
def Driver.isConnected (d : Driver) : Bool := d.hasSerial && d.isOpen

/-- The spec's ConnectionState, as derived from the driver's fields. -/
def Driver.connState (d : Driver) : ConnState :=
  if d.isConnected = false then .Disconnected
  else if d.scanning then .Scanning
  else .Connected

/-- `stop_motor`: lower DTR when the handle exists; never raises. -/
def stopMotorOp (d : Driver) : Option DriverError × Driver :=
  if d.hasSerial then (none, { d with dtr := false }) else (none, d)

/-- `start_motor`: raise DTR when the handle exists; never raises. -/
def startMotorOp (d : Driver) : Option DriverError × Driver :=
  if d.hasSerial then (none, { d with dtr := true }) else (none, d)

/-- `_send_command`: raises when not connected, then writes (which the
environment may fail); the modelled state is unchanged either way. -/
def sendCommandOp (d : Driver) : Option DriverError × Driver :=
  if d.isConnected = false then (some .notConnected, d)
  else if d.writeFails then (some .writeError, d)
  else (none, d)

/-- `_read_descriptor`: consume up to 7 bytes from the receive buffer
and parse them. -/
def readDescriptorOp (d : Driver) : Except DriverError Descriptor × Driver :=
  if d.hasSerial = false then (.error .notConnected, d)
  else
    let taken := d.inputBuffer.take DESCRIPTOR_SIZE
    (parseDescriptor taken, { d with inputBuffer := d.inputBuffer.drop DESCRIPTOR_SIZE })

/-- `start_scan`: refuse when already scanning; start the motor, send
the SCAN command, read the descriptor, check its type tag, and only
then set the scanning flag. -/
def startScan (d : Driver) : Option DriverError × Driver :=
  if d.scanning then (some .scanInProgress, d)
  else
    let d1 := (startMotorOp d).2
    match sendCommandOp d1 with
    | (some e, d2) => (some e, d2)
    | (none, d2) =>
      match readDescriptorOp d2 with
      | (.error e, d3) => (some e, d3)
      | (.ok desc, d3) =>
        if desc.data_type ≠ RESPONSE_SCAN then (some .unexpectedResponseType, d3)
        else (none, { d3 with scanning := true })

/-- `stop_scan`: send STOP, clear the scanning flag, then discard any
buffered input when still connected. -/
def stopScan (d : Driver) : Option DriverError × Driver :=
  match sendCommandOp d with
  | (some e, d1) => (some e, d1)
  | (none, d1) =>
    let d2 := { d1 with scanning := false }
    if d2.isConnected then (none, { d2 with inputBuffer := [] })
    else (none, d2)

/-- The body of `disconnect`'s try block: `if self._scanning:
self.stop_scan()` then `self.stop_motor()`; an error raised by
stop_scan propagates out of the body before stop_motor runs. -/
def disconnectTryBody (d : Driver) : Driver :=
  if d.scanning then
    match stopScan d with
    | (some _, d1) => d1
    | (none, d1) => (stopMotorOp d1).2
  else (stopMotorOp d).2

/-- `disconnect`: when a handle exists, run the try body with any error
swallowed, then close the handle and drop it. -/
def disconnect (d : Driver) : Driver :=
  if d.hasSerial then
    { disconnectTryBody d with hasSerial := false, isOpen := false }
  else d

end RPLidar

namespace RPLidar

/-! ### Helper lemmas about sorting and the accumulator loop. -/

theorem angleLe_trans (a b c : ScanPoint) :
    angleLe a b → angleLe b c → angleLe a c := by
  simp only [angleLe, decide_eq_true_eq]
  exact le_trans

theorem angleLe_total (a b : ScanPoint) : angleLe a b || angleLe b a := by
  simp only [angleLe, Bool.or_eq_true, decide_eq_true_eq]
  exact le_total a.angle b.angle

theorem sortByAngle_pairwise (l : List ScanPoint) :
    (sortByAngle l).Pairwise (fun a b => a.angle ≤ b.angle) := by
  have h := @List.sorted_mergeSort ScanPoint angleLe angleLe_trans angleLe_total l
  exact h.imp (fun hab => by
    have := of_decide_eq_true hab
    exact this)

theorem mem_sortByAngle {a : ScanPoint} {l : List ScanPoint} :
    a ∈ sortByAngle l ↔ a ∈ l := List.mem_mergeSort

/-- Invariant of the accumulator loop: if every accumulated point has
positive distance, then every rotation the loop ever emits is sorted
non-decreasingly by angle and consists of positive-distance points. -/
theorem iterScansAux_invariant (maxScans : Nat) (points : List ScanPoint) :
    ∀ (current : List ScanPoint) (count : Nat),
      (∀ q ∈ current, 0 < q.distance) →
      ∀ rot ∈ iterScansAux maxScans current count points,
        rot.Pairwise (fun a b => a.angle ≤ b.angle) ∧ ∀ q ∈ rot, 0 < q.distance := by
  induction points with
  | nil =>
    intro current count hcur rot hrot
    simp [iterScansAux] at hrot
  | cons p rest ih =>
    intro current count hcur rot hrot
    simp only [iterScansAux] at hrot
    split_ifs at hrot with hns hbrk hd hd
    · rw [List.mem_singleton] at hrot
      subst hrot
      exact ⟨sortByAngle_pairwise current,
        fun q hq => hcur q (mem_sortByAngle.mp hq)⟩
    · rcases List.mem_cons.mp hrot with hrot | hrot
      · subst hrot
        exact ⟨sortByAngle_pairwise current,
          fun q hq => hcur q (mem_sortByAngle.mp hq)⟩
      · exact ih _ _ (by intro q hq; rw [List.mem_singleton] at hq; subst hq; exact hd)
          rot hrot
    · rcases List.mem_cons.mp hrot with hrot | hrot
      · subst hrot
        exact ⟨sortByAngle_pairwise current,
          fun q hq => hcur q (mem_sortByAngle.mp hq)⟩
      · exact ih _ _ (by intro q hq; exact absurd hq (List.not_mem_nil q)) rot hrot
    · refine ih _ _ ?_ rot hrot
      intro q hq
      rcases List.mem_append.mp hq with hq | hq
      · exact hcur q hq
      · rw [List.mem_singleton] at hq
        subst hq
        exact hd
    · exact ih _ _ hcur rot hrot

/-- C6: decoding the worked example frame from the spec. -/
theorem parseScanResponse_example :
    parseScanResponse [0x29, 0x01, 0x2D, 0xC0, 0x12] =
      { angle := 90, distance := 1200, quality := 10, new_scan := true } := by
  norm_num [parseScanResponse, ScanPoint.mk.injEq,
    show (1 >>> 1 ||| 45 <<< 7 : Nat) = 5760 from rfl,
    show (192 ||| 18 <<< 8 : Nat) = 4800 from rfl,
    show (41 >>> 2 : Nat) = 10 from rfl]

/-- C3: with a payload of length between 1 and 255 the encoded frame is
sync, command, length, payload, then the XOR of all preceding bytes; with
an empty payload it is exactly the two bytes sync, command. -/
theorem encodeCommand_spec (c : Nat) (p : List Nat)
    (h1 : 1 ≤ p.length) (h2 : p.length ≤ 255) :
    encodeCommand c p =
      ([0xA5, c, p.length] ++ p) ++ [xorBytes ([0xA5, c, p.length] ++ p)]
    ∧ encodeCommand c [] = [0xA5, c] := by
  have hne : p.isEmpty = false := by
    cases p with
    | nil => simp at h1
    | cons a l => rfl
  refine ⟨?_, rfl⟩
  simp [encodeCommand, hne, SYNC_BYTE_1]

theorem encodeCommand_spec_witness :
    encodeCommand 0x25 [0x02] =
      ([0xA5, 0x25, [0x02].length] ++ [0x02]) ++
        [xorBytes ([0xA5, 0x25, [0x02].length] ++ [0x02])]
    ∧ encodeCommand 0x25 [] = [0xA5, 0x25] :=
  encodeCommand_spec 0x25 [0x02] (by decide) (by decide)

/-- C4: on a read of at most 7 bytes, descriptor parsing fails exactly
when fewer than 7 bytes came back or the first two bytes are not
0xA5, 0x5A; otherwise it returns the low 30 bits of the little-endian
32-bit field in bytes 2-5 as the size, its top 2 bits as the send mode,
and byte 6 as the uninterpreted response-type tag. -/
theorem parseDescriptor_spec (bytes : List Nat) (h7 : bytes.length ≤ 7) :
    ((∃ e, parseDescriptor bytes = .error e) ↔
      (bytes.length < 7 ∨ bytes.getD 0 0 ≠ 0xA5 ∨ bytes.getD 1 0 ≠ 0x5A))
    ∧ (bytes.length = 7 → bytes.getD 0 0 = 0xA5 → bytes.getD 1 0 = 0x5A →
        parseDescriptor bytes = .ok
          { size :=
              leU32 (bytes.getD 2 0) (bytes.getD 3 0)
                (bytes.getD 4 0) (bytes.getD 5 0) % 2 ^ 30
            send_mode :=
              leU32 (bytes.getD 2 0) (bytes.getD 3 0)
                (bytes.getD 4 0) (bytes.getD 5 0) / 2 ^ 30
            data_type := bytes.getD 6 0 }) := by
  constructor
  · unfold parseDescriptor
    simp only [SYNC_BYTE_1, SYNC_BYTE_2, DESCRIPTOR_SIZE]
    by_cases hlen : bytes.length = 7
    · have hlt : ¬ bytes.length < 7 := by omega
      rw [if_neg (by simp [hlen])]
      by_cases h0 : bytes.getD 0 0 = 0xA5
      · by_cases h1 : bytes.getD 1 0 = 0x5A
        · rw [if_neg (by push_neg; exact ⟨h0, h1⟩)]
          simp only [h0, h1]
          simp [hlt]
        · rw [if_pos (Or.inr h1)]
          exact iff_of_true ⟨_, rfl⟩ (Or.inr (Or.inr h1))
      · rw [if_pos (Or.inl h0)]
        exact iff_of_true ⟨_, rfl⟩ (Or.inr (Or.inl h0))
    · have hlt : bytes.length < 7 := lt_of_le_of_ne h7 hlen
      rw [if_pos (by omega)]
      exact iff_of_true ⟨_, rfl⟩ (Or.inl hlt)
  · intro hlen h0 h1
    unfold parseDescriptor
    simp only [SYNC_BYTE_1, SYNC_BYTE_2, DESCRIPTOR_SIZE]
    rw [if_neg (by simp [hlen]),
      if_neg (by push_neg; exact ⟨h0, h1⟩)]
    simp only [Except.ok.injEq, Descriptor.mk.injEq]
    refine ⟨?_, ?_, by trivial⟩
    · rw [show (0x3FFFFFFF : Nat) = 2 ^ 30 - 1 from rfl,
        Nat.and_pow_two_sub_one_eq_mod]
    · rw [Nat.shiftRight_eq_div_pow]

theorem parseDescriptor_spec_witness :
    ((∃ e, parseDescriptor [0xA5, 0x5A, 0x03, 0x00, 0x00, 0x00, 0x06] = .error e) ↔
      (([0xA5, 0x5A, 0x03, 0x00, 0x00, 0x00, 0x06] : List Nat).length < 7 ∨
        ([0xA5, 0x5A, 0x03, 0x00, 0x00, 0x00, 0x06] : List Nat).getD 0 0 ≠ 0xA5 ∨
        ([0xA5, 0x5A, 0x03, 0x00, 0x00, 0x00, 0x06] : List Nat).getD 1 0 ≠ 0x5A))
    ∧ (([0xA5, 0x5A, 0x03, 0x00, 0x00, 0x00, 0x06] : List Nat).length = 7 →
        ([0xA5, 0x5A, 0x03, 0x00, 0x00, 0x00, 0x06] : List Nat).getD 0 0 = 0xA5 →
        ([0xA5, 0x5A, 0x03, 0x00, 0x00, 0x00, 0x06] : List Nat).getD 1 0 = 0x5A →
        parseDescriptor [0xA5, 0x5A, 0x03, 0x00, 0x00, 0x00, 0x06] = .ok
          { size :=
              leU32 (([0xA5, 0x5A, 0x03, 0x00, 0x00, 0x00, 0x06] : List Nat).getD 2 0)
                (([0xA5, 0x5A, 0x03, 0x00, 0x00, 0x00, 0x06] : List Nat).getD 3 0)
                (([0xA5, 0x5A, 0x03, 0x00, 0x00, 0x00, 0x06] : List Nat).getD 4 0)
                (([0xA5, 0x5A, 0x03, 0x00, 0x00, 0x00, 0x06] : List Nat).getD 5 0) % 2 ^ 30
            send_mode :=
              leU32 (([0xA5, 0x5A, 0x03, 0x00, 0x00, 0x00, 0x06] : List Nat).getD 2 0)
                (([0xA5, 0x5A, 0x03, 0x00, 0x00, 0x00, 0x06] : List Nat).getD 3 0)
                (([0xA5, 0x5A, 0x03, 0x00, 0x00, 0x00, 0x06] : List Nat).getD 4 0)
                (([0xA5, 0x5A, 0x03, 0x00, 0x00, 0x00, 0x06] : List Nat).getD 5 0) / 2 ^ 30
            data_type := ([0xA5, 0x5A, 0x03, 0x00, 0x00, 0x00, 0x06] : List Nat).getD 6 0 }) :=
  parseDescriptor_spec [0xA5, 0x5A, 0x03, 0x00, 0x00, 0x00, 0x06] (by decide)

/-- C5 counterexample: the well-formed 5-byte frame `[0x00, 0x00, 0xFF,
0x00, 0x00]` decodes to an angle of 510 degrees, which is not below 360:
the 15-bit angle field spans up to just short of 512 degrees. -/
theorem parseScanResponse_angle_counterexample :
    ([0x00, 0x00, 0xFF, 0x00, 0x00] : List Nat).all (fun b => decide (b < 256)) = true
    ∧ (parseScanResponse [0x00, 0x00, 0xFF, 0x00, 0x00]).angle = 510
    ∧ ¬ (parseScanResponse [0x00, 0x00, 0xFF, 0x00, 0x00]).angle < 360 := by
  refine ⟨by decide, ?_, ?_⟩ <;>
    norm_num [parseScanResponse,
      show (0 >>> 1 ||| 255 <<< 7 : Nat) = 32640 from rfl,
      show (255 <<< 7 : Nat) = 32640 from rfl]

/-- C5 (amended): for every 5-byte frame of bytes below 256, the decoded
point has quality in [0, 63] and angle in [0, 512) degrees (the raw angle
field is 15 bits of 1/64-degree ticks, so it is bounded by 512 degrees,
not 360). -/
theorem parseScanResponse_ranges (data : List Nat)
    (h5 : data.length = 5) (h : ∀ b ∈ data, b < 256) :
    (parseScanResponse data).quality ≤ 63 ∧
    0 ≤ (parseScanResponse data).angle ∧
    (parseScanResponse data).angle < 512 := by
  have hb : ∀ i, data.getD i 0 < 256 := by
    intro i
    rcases Nat.lt_or_ge i data.length with hi | hi
    · rw [List.getD_eq_getElem data 0 hi]
      exact h _ (List.getElem_mem hi)
    · rw [List.getD_eq_default data 0 hi]
      norm_num
  have hraw : (data.getD 1 0 >>> 1) ||| (data.getD 2 0 <<< 7) < 2 ^ 15 := by
    apply Nat.or_lt_two_pow
    · have h1 := hb 1
      rw [Nat.shiftRight_eq_div_pow,
        show (2 : Nat) ^ 1 = 2 from rfl, show (2 : Nat) ^ 15 = 32768 from rfl]
      omega
    · have h2 := hb 2
      rw [Nat.shiftLeft_eq,
        show (2 : Nat) ^ 7 = 128 from rfl, show (2 : Nat) ^ 15 = 32768 from rfl]
      omega
  refine ⟨?_, ?_, ?_⟩
  · show data.getD 0 0 >>> 2 ≤ 63
    have h0 := hb 0
    rw [Nat.shiftRight_eq_div_pow]
    omega
  · show (0 : ℚ) ≤ ((data.getD 1 0 >>> 1 ||| data.getD 2 0 <<< 7 : Nat) : ℚ) / 64
    positivity
  · show ((data.getD 1 0 >>> 1 ||| data.getD 2 0 <<< 7 : Nat) : ℚ) / 64 < 512
    rw [div_lt_iff₀ (by norm_num)]
    have hq : ((data.getD 1 0 >>> 1 ||| data.getD 2 0 <<< 7 : Nat) : ℚ) < 32768 := by
      exact_mod_cast hraw
    calc ((data.getD 1 0 >>> 1 ||| data.getD 2 0 <<< 7 : Nat) : ℚ) < 32768 := hq
      _ = 512 * 64 := by norm_num

theorem parseScanResponse_ranges_witness :
    (parseScanResponse [0x29, 0x01, 0x2D, 0xC0, 0x12]).quality ≤ 63 ∧
    0 ≤ (parseScanResponse [0x29, 0x01, 0x2D, 0xC0, 0x12]).angle ∧
    (parseScanResponse [0x29, 0x01, 0x2D, 0xC0, 0x12]).angle < 512 :=
  parseScanResponse_ranges [0x29, 0x01, 0x2D, 0xC0, 0x12] (by decide) (by decide)

/-- C1: for every finite input sequence fed to the accumulator, every
emitted rotation is sorted non-decreasingly by angle and contains no
point with distance ≤ 0. -/
theorem iterScans_sorted_and_valid (points : List ScanPoint) (maxScans : Nat)
    (rot : List ScanPoint) (hrot : rot ∈ iterScans points maxScans) :
    rot.Pairwise (fun a b => a.angle ≤ b.angle) ∧ ∀ q ∈ rot, ¬ q.distance ≤ 0 := by
  have h := iterScansAux_invariant maxScans points [] 0 (by simp) rot hrot
  exact ⟨h.1, fun q hq => not_le.mpr (h.2 q hq)⟩

theorem iterScans_sorted_and_valid_witness :
    (sortByAngle [⟨1, 5, 0, false⟩, ⟨10, 3, 0, false⟩]).Pairwise
        (fun a b : ScanPoint => a.angle ≤ b.angle) ∧
      ∀ q ∈ sortByAngle [⟨1, 5, 0, false⟩, ⟨10, 3, 0, false⟩], ¬ q.distance ≤ 0 :=
  iterScans_sorted_and_valid
    [⟨1, 5, 0, false⟩, ⟨10, 3, 0, false⟩, ⟨0, 0, 0, true⟩] 0
    (sortByAngle [⟨1, 5, 0, false⟩, ⟨10, 3, 0, false⟩])
    (by norm_num [iterScans, iterScansAux]; simp)

/-- C2: a rotation-start point with distance 0 never appears in any
emitted rotation, yet when such a point arrives while the accumulation
is non-empty, the accumulation is sorted and emitted (closed out) at
that step and the point itself is dropped rather than kept as the seed
of the next rotation. -/
theorem iterScans_zero_distance_start :
    (∀ (points : List ScanPoint) (maxScans : Nat) (rot : List ScanPoint),
        rot ∈ iterScans points maxScans →
        ∀ q ∈ rot, ¬ (q.new_scan = true ∧ q.distance = 0))
    ∧ (∀ (maxScans count : Nat) (current rest : List ScanPoint) (p : ScanPoint),
        p.new_scan = true → p.distance = 0 → current ≠ [] →
        iterScansAux maxScans current count (p :: rest) =
          if maxScans > 0 ∧ count + 1 ≥ maxScans then [sortByAngle current]
          else sortByAngle current :: iterScansAux maxScans [] (count + 1) rest) := by
  constructor
  · intro points maxScans rot hrot q hq hcontra
    have h := iterScansAux_invariant maxScans points [] 0 (by simp) rot hrot
    have hpos := h.2 q hq
    rw [hcontra.2] at hpos
    exact lt_irrefl 0 hpos
  · intro maxScans count current rest p hns hd hne
    simp only [iterScansAux]
    rw [if_pos ⟨hns, hne⟩]
    by_cases hbrk : maxScans > 0 ∧ count + 1 ≥ maxScans
    · rw [if_pos hbrk, if_pos hbrk]
    · rw [if_neg hbrk, if_neg hbrk]
      have hnd : ¬ p.distance > 0 := by rw [hd]; exact lt_irrefl 0
      rw [if_neg hnd]

theorem iterScans_zero_distance_start_witness :
    (∀ q ∈ sortByAngle [⟨1, 5, 0, false⟩],
        ¬ (q.new_scan = true ∧ q.distance = 0))
    ∧ iterScansAux 0 [⟨1, 5, 0, false⟩] 0 [⟨0, 0, 0, true⟩] =
        (if (0 : Nat) > 0 ∧ 0 + 1 ≥ 0 then [sortByAngle [⟨1, 5, 0, false⟩]]
          else sortByAngle [⟨1, 5, 0, false⟩] :: iterScansAux 0 [] (0 + 1) []) := by
  constructor
  · exact iterScans_zero_distance_start.1 [⟨1, 5, 0, false⟩, ⟨0, 0, 0, true⟩] 0
      (sortByAngle [⟨1, 5, 0, false⟩]) (by norm_num [iterScans, iterScansAux])
  · exact iterScans_zero_distance_start.2 0 0 [⟨1, 5, 0, false⟩] [] ⟨0, 0, 0, true⟩
      rfl rfl (by simp)

theorem stopScan_hasSerial (d : Driver) : (stopScan d).2.hasSerial = d.hasSerial := by
  unfold stopScan sendCommandOp
  split_ifs
  · rfl
  · rfl
  · split
    · rename_i e d2 heq
      simp at heq
    · rename_i d2 heq
      injection heq with ha hb
      subst hb
      dsimp only
      split <;> rfl

/-- C7 counterexample: from a Scanning state whose transport write
raises, `stop_scan` inside `disconnect` raises, and `stop_motor` is then
NOT attempted (the single try/except covers both calls), so the DTR
line stays high even though the transport does get closed. -/
theorem disconnect_counterexample :
    (stopScan { hasSerial := true, isOpen := true, dtr := true,
                writeFails := true, inputBuffer := [], scanning := true }).1 = some .writeError
    ∧ (stopMotorOp { hasSerial := true, isOpen := true, dtr := true,
                     writeFails := true, inputBuffer := [], scanning := true }).2.dtr = false
    ∧ (disconnect { hasSerial := true, isOpen := true, dtr := true,
                    writeFails := true, inputBuffer := [], scanning := true }).dtr = true := by
  refine ⟨rfl, rfl, rfl⟩

/-- C7 (amended): `disconnect()` runs stop_scan (when scanning) and
stop_motor inside a single error-swallowing block, so an error raised
by stop_scan skips stop_motor; in every case the transport handle is
dropped and the driver ends Disconnected, and whenever stop_scan did
not raise (or was not needed) the motor line is lowered before the
transport is closed. -/
theorem disconnect_spec (d : Driver) :
    (disconnect d).hasSerial = false
    ∧ (disconnect d).connState = .Disconnected
    ∧ (d.hasSerial = true → d.scanning = true → (stopScan d).1 = none →
        (disconnect d).dtr = false)
    ∧ (d.hasSerial = true → d.scanning = false → (disconnect d).dtr = false) := by
  by_cases hs : d.hasSerial = true
  · have hd : disconnect d =
        { disconnectTryBody d with hasSerial := false, isOpen := false } := by
      simp [disconnect, hs]
    refine ⟨by rw [hd], by rw [hd]; simp [Driver.connState, Driver.isConnected], ?_, ?_⟩
    · intro _ hsc hnone
      rw [hd]
      show (disconnectTryBody d).dtr = false
      unfold disconnectTryBody
      rw [if_pos hsc]
      rcases hss : stopScan d with ⟨err, d1⟩
      rw [hss] at hnone
      simp only at hnone
      subst hnone
      have h1 : d1.hasSerial = d.hasSerial := by
        have := stopScan_hasSerial d
        rw [hss] at this
        exact this
      simp only [stopMotorOp, h1, hs, if_pos]
    · intro _ hsc
      rw [hd]
      show (disconnectTryBody d).dtr = false
      unfold disconnectTryBody
      rw [if_neg (by simp [hsc])]
      simp only [stopMotorOp, hs, if_pos]
  · have hs2 : d.hasSerial = false := by
      cases h : d.hasSerial
      · rfl
      · exact absurd h hs
    have hd : disconnect d = d := by simp [disconnect, hs2]
    refine ⟨by rw [hd]; exact hs2, by rw [hd]; simp [Driver.connState, Driver.isConnected, hs2],
      ?_, ?_⟩
    · intro h
      exact absurd h hs
    · intro h
      exact absurd h hs

theorem disconnect_spec_witness :
    (disconnect { hasSerial := true, isOpen := true, dtr := true,
                  writeFails := false, inputBuffer := [], scanning := false }).dtr = false :=
  (disconnect_spec _).2.2.2 rfl rfl

/-- C8 counterexample: a Disconnected driver is not scanning, yet
stop_scan raises (Not connected) because it unconditionally sends the
STOP command through `_send_command`. -/
theorem stopScan_counterexample :
    ({ hasSerial := false, isOpen := false, dtr := false,
       writeFails := false, inputBuffer := [], scanning := false } : Driver).scanning = false
    ∧ (stopScan { hasSerial := false, isOpen := false, dtr := false,
                  writeFails := false, inputBuffer := [], scanning := false }).1 =
        some DriverError.notConnected :=
  ⟨rfl, rfl⟩

/-- C8 (amended): when the driver is Connected with a working transport
and not scanning, stop_scan() raises no error and leaves the
ConnectionState Connected with the scanning flag still clear; when the
driver is Disconnected, stop_scan raises instead of being a no-op. -/
theorem stopScan_idempotent (d : Driver)
    (hc : d.isConnected = true) (hw : d.writeFails = false) (hs : d.scanning = false) :
    (stopScan d).1 = none
    ∧ (stopScan d).2.connState = ConnState.Connected
    ∧ (stopScan d).2.scanning = false := by
  have hhs : d.hasSerial = true := by
    have h := hc
    simp [Driver.isConnected] at h
    exact h.1
  have hio : d.isOpen = true := by
    have h := hc
    simp [Driver.isConnected] at h
    exact h.2
  unfold stopScan sendCommandOp
  rw [if_neg (by rw [hc]; simp), if_neg (by rw [hw]; simp)]
  dsimp only
  rw [if_pos (show ((({ d with scanning := false } : Driver)).isConnected = true) from hc)]
  exact ⟨rfl, by simp [Driver.connState, Driver.isConnected, hhs, hio], rfl⟩

theorem stopScan_idempotent_witness :
    (stopScan { hasSerial := true, isOpen := true, dtr := false,
                writeFails := false, inputBuffer := [0x11], scanning := false }).1 = none
    ∧ (stopScan { hasSerial := true, isOpen := true, dtr := false,
                  writeFails := false, inputBuffer := [0x11], scanning := false
                }).2.connState = ConnState.Connected
    ∧ (stopScan { hasSerial := true, isOpen := true, dtr := false,
                  writeFails := false, inputBuffer := [0x11], scanning := false
                }).2.scanning = false :=
  stopScan_idempotent _ rfl rfl rfl

/-- Reduction of `startScan` from a Connected, non-scanning state with a
working transport: the result is decided by parsing the first 7
buffered bytes as a descriptor and checking its type tag. -/
theorem startScan_eq_of_connected (dt : Bool) (buf : List Nat) :
    startScan ⟨true, true, dt, false, buf, false⟩ =
      match parseDescriptor (List.take 7 buf) with
      | .error e1 => (some e1, ⟨true, true, true, false, List.drop 7 buf, false⟩)
      | .ok desc =>
        if desc.data_type ≠ RESPONSE_SCAN then
          (some DriverError.unexpectedResponseType,
            ⟨true, true, true, false, List.drop 7 buf, false⟩)
        else (none, ⟨true, true, true, false, List.drop 7 buf, true⟩) := by
  rcases hp : parseDescriptor (List.take 7 buf) with e1 | desc <;>
    simp [startScan, startMotorOp, sendCommandOp, readDescriptorOp, hp,
      DESCRIPTOR_SIZE, Driver.isConnected]

/-- C9: start_scan fails with StateError when already Scanning, fails
with ProtocolError when the response descriptor's type tag differs from
the scan-response tag, and sets the state to Scanning only when every
step succeeds: on any failure the ConnectionState is unchanged. -/
theorem startScan_spec (d : Driver) :
    (d.scanning = true → startScan d = (some DriverError.scanInProgress, d))
    ∧ (∀ e d2, startScan d = (some e, d2) → d2.connState = d.connState)
    ∧ (∀ d2, startScan d = (none, d2) → d2.connState = ConnState.Scanning)
    ∧ (d.scanning = false → d.isConnected = true → d.writeFails = false →
        ∀ desc, parseDescriptor (d.inputBuffer.take DESCRIPTOR_SIZE) = Except.ok desc →
        desc.data_type ≠ RESPONSE_SCAN →
        (startScan d).1 = some DriverError.unexpectedResponseType) := by
  obtain ⟨hs, ho, dt, wf, buf, sc⟩ := d
  refine ⟨?_, ?_, ?_, ?_⟩
  · intro hsc
    cases sc
    · exact absurd hsc (by simp)
    · rfl
  · intro e d2 h
    cases sc
    · cases hs
      · have hred : startScan ⟨false, ho, dt, wf, buf, false⟩ =
            (some DriverError.notConnected, ⟨false, ho, dt, wf, buf, false⟩) := rfl
        rw [hred] at h
        injection h with h1 h2
        rw [← h2]
      · cases ho
        · have hred : startScan ⟨true, false, dt, wf, buf, false⟩ =
              (some DriverError.notConnected, ⟨true, false, true, wf, buf, false⟩) := rfl
          rw [hred] at h
          injection h with h1 h2
          rw [← h2]
          rfl
        · cases wf
          · rcases hp : parseDescriptor (List.take 7 buf) with e1 | desc
            · rw [startScan_eq_of_connected, hp] at h
              injection h with h1 h2
              rw [← h2]
              rfl
            · rw [startScan_eq_of_connected, hp] at h
              dsimp only at h
              by_cases hdt : desc.data_type = RESPONSE_SCAN
              · rw [if_neg (by simp [hdt])] at h
                injection h with h1 h2
                simp at h1
              · rw [if_pos hdt] at h
                injection h with h1 h2
                rw [← h2]
                rfl
          · have hred : startScan ⟨true, true, dt, true, buf, false⟩ =
                (some DriverError.writeError, ⟨true, true, true, true, buf, false⟩) := rfl
            rw [hred] at h
            injection h with h1 h2
            rw [← h2]
            rfl
    · have hred : startScan ⟨hs, ho, dt, wf, buf, true⟩ =
          (some DriverError.scanInProgress, ⟨hs, ho, dt, wf, buf, true⟩) := rfl
      rw [hred] at h
      injection h with h1 h2
      rw [← h2]
  · intro d2 h
    cases sc
    · cases hs
      · have hred : startScan ⟨false, ho, dt, wf, buf, false⟩ =
            (some DriverError.notConnected, ⟨false, ho, dt, wf, buf, false⟩) := rfl
        rw [hred] at h
        injection h with h1 h2
        simp at h1
      · cases ho
        · have hred : startScan ⟨true, false, dt, wf, buf, false⟩ =
              (some DriverError.notConnected, ⟨true, false, true, wf, buf, false⟩) := rfl
          rw [hred] at h
          injection h with h1 h2
          simp at h1
        · cases wf
          · rcases hp : parseDescriptor (List.take 7 buf) with e1 | desc
            · rw [startScan_eq_of_connected, hp] at h
              injection h with h1 h2
              simp at h1
            · rw [startScan_eq_of_connected, hp] at h
              dsimp only at h
              by_cases hdt : desc.data_type = RESPONSE_SCAN
              · rw [if_neg (by simp [hdt])] at h
                injection h with h1 h2
                rw [← h2]
                rfl
              · rw [if_pos hdt] at h
                injection h with h1 h2
                simp at h1
          · have hred : startScan ⟨true, true, dt, true, buf, false⟩ =
                (some DriverError.writeError, ⟨true, true, true, true, buf, false⟩) := rfl
            rw [hred] at h
            injection h with h1 h2
            simp at h1
    · have hred : startScan ⟨hs, ho, dt, wf, buf, true⟩ =
          (some DriverError.scanInProgress, ⟨hs, ho, dt, wf, buf, true⟩) := rfl
      rw [hred] at h
      injection h with h1 h2
      simp at h1
  · intro hsc hc hw desc hp hdt
    cases sc
    · cases hs
      · exact absurd hc (by simp [Driver.isConnected])
      · cases ho
        · exact absurd hc (by simp [Driver.isConnected])
        · cases wf
          · dsimp only [DESCRIPTOR_SIZE] at hp
            rw [startScan_eq_of_connected, hp]
            dsimp only
            rw [if_pos hdt]
          · exact absurd hw (by simp)
    · exact absurd hsc (by simp)

theorem startScan_spec_witness :
    (({ hasSerial := true, isOpen := true, dtr := false, writeFails := false,
        inputBuffer := [0xA5, 0x5A, 0x05, 0x00, 0x00, 0x40, 0x81], scanning := false
      } : Driver).scanning = true →
      startScan { hasSerial := true, isOpen := true, dtr := false, writeFails := false,
                  inputBuffer := [0xA5, 0x5A, 0x05, 0x00, 0x00, 0x40, 0x81], scanning := false } =
        (some DriverError.scanInProgress,
          { hasSerial := true, isOpen := true, dtr := false, writeFails := false,
            inputBuffer := [0xA5, 0x5A, 0x05, 0x00, 0x00, 0x40, 0x81], scanning := false }))
    ∧ (∀ e d2,
        startScan { hasSerial := true, isOpen := true, dtr := false, writeFails := false,
                    inputBuffer := [0xA5, 0x5A, 0x05, 0x00, 0x00, 0x40, 0x81], scanning := false } =
          (some e, d2) →
        d2.connState =
          ({ hasSerial := true, isOpen := true, dtr := false, writeFails := false,
             inputBuffer := [0xA5, 0x5A, 0x05, 0x00, 0x00, 0x40, 0x81], scanning := false
           } : Driver).connState)
    ∧ (∀ d2,
        startScan { hasSerial := true, isOpen := true, dtr := false, writeFails := false,
                    inputBuffer := [0xA5, 0x5A, 0x05, 0x00, 0x00, 0x40, 0x81], scanning := false } =
          (none, d2) →
        d2.connState = ConnState.Scanning)
    ∧ (({ hasSerial := true, isOpen := true, dtr := false, writeFails := false,
          inputBuffer := [0xA5, 0x5A, 0x05, 0x00, 0x00, 0x40, 0x81], scanning := false
        } : Driver).scanning = false →
        ({ hasSerial := true, isOpen := true, dtr := false, writeFails := false,
           inputBuffer := [0xA5, 0x5A, 0x05, 0x00, 0x00, 0x40, 0x81], scanning := false
         } : Driver).isConnected = true →
        ({ hasSerial := true, isOpen := true, dtr := false, writeFails := false,
           inputBuffer := [0xA5, 0x5A, 0x05, 0x00, 0x00, 0x40, 0x81], scanning := false
         } : Driver).writeFails = false →
        ∀ desc,
          parseDescriptor
            (({ hasSerial := true, isOpen := true, dtr := false, writeFails := false,
                inputBuffer := [0xA5, 0x5A, 0x05, 0x00, 0x00, 0x40, 0x81], scanning := false
              } : Driver).inputBuffer.take DESCRIPTOR_SIZE) = Except.ok desc →
          desc.data_type ≠ RESPONSE_SCAN →
          (startScan { hasSerial := true, isOpen := true, dtr := false, writeFails := false,
                       inputBuffer := [0xA5, 0x5A, 0x05, 0x00, 0x00, 0x40, 0x81],
                       scanning := false }).1 = some DriverError.unexpectedResponseType) :=
  startScan_spec _

/-- C10: start_motor and stop_motor never raise in any state; when the
transport handle is absent each leaves the driver state unchanged, so
the motor-stop step of disconnect cannot fail for lack of a handle. -/
theorem motor_ops_never_raise (d : Driver) :
    (stopMotorOp d).1 = none ∧ (startMotorOp d).1 = none
    ∧ (d.hasSerial = false → (stopMotorOp d).2 = d ∧ (startMotorOp d).2 = d) := by
  cases h : d.hasSerial <;> simp [stopMotorOp, startMotorOp, h]

theorem motor_ops_never_raise_witness :
    (stopMotorOp { hasSerial := false, isOpen := false, dtr := false,
                   writeFails := false, inputBuffer := [], scanning := false }).1 = none
    ∧ (startMotorOp { hasSerial := false, isOpen := false, dtr := false,
                      writeFails := false, inputBuffer := [], scanning := false }).1 = none
    ∧ (({ hasSerial := false, isOpen := false, dtr := false,
          writeFails := false, inputBuffer := [], scanning := false
        } : Driver).hasSerial = false →
        (stopMotorOp { hasSerial := false, isOpen := false, dtr := false,
                       writeFails := false, inputBuffer := [], scanning := false }).2 =
          { hasSerial := false, isOpen := false, dtr := false,
            writeFails := false, inputBuffer := [], scanning := false }
        ∧ (startMotorOp { hasSerial := false, isOpen := false, dtr := false,
                          writeFails := false, inputBuffer := [], scanning := false }).2 =
          { hasSerial := false, isOpen := false, dtr := false,
            writeFails := false, inputBuffer := [], scanning := false }) :=
  motor_ops_never_raise _

end RPLidar
